import Mathlib

/-!
# osx-scrobbler: a shallow embedding of the play-session decision engine

This file embeds, in Lean, the pure decision logic of the `osx-scrobbler`
repository and proves properties of it:

* `src/text_cleanup.rs` — `TextCleaner::clean` (regex noise-pattern removal
  followed by whitespace trimming);
* `src/config.rs` — the configuration record and `Config::validate`;
* `src/media_monitor.rs` — `PlaySession`, `MediaMonitor::should_scrobble_app`,
  `MediaMonitor::media_info_to_track`, and `MediaMonitor::poll`;
* `src/scrobbler.rs` — the shape of what `Service::scrobble` submits;
* `src/main.rs` — the per-event dispatch loop over configured services.

Conventions of the embedding:

* Rust `u64`/`u8` values are modelled as `Nat`; the one place where `u64`
  multiplication can wrap (`duration * threshold_percent` in
  `PlaySession::should_scrobble`) carries an explicit `% 2 ^ 64`.
* `chrono::DateTime<Utc>` instants are modelled as `Int` (Unix seconds);
  `Utc::now()` becomes an explicit `now : Int` argument threaded to the
  functions that read the clock.
* Strings are Lean `String`s; regex patterns are modelled in the literal
  fragment of the regex language (a pattern is the exact character sequence
  it matches), with `Regex::replace_all(pattern, "")` removing every
  leftmost non-overlapping match, as the `regex` crate does for a literal.
* Fallible operations return `Except String Unit` mirroring `anyhow::Result`.
-/

namespace OsxScrobbler

/-! ## Text cleanup (`src/text_cleanup.rs`) -/

/-- Scanner for `removeAll`, structurally recursive on a fuel argument so
that it reduces inside the kernel. Each step consumes at least one character
of `s` together with one unit of fuel, so fuel `s.length` is always enough
and the `0, s` fallback is never reached by `removeAll`. -/
def removeAllFuel (p : List Char) : Nat → List Char → List Char
  | _, [] => []
  | 0, s => s
  | fuel + 1, c :: rest =>
    if p.isPrefixOf (c :: rest) ∧ p ≠ [] then
      removeAllFuel p fuel ((c :: rest).drop p.length)
    else
      c :: removeAllFuel p fuel rest

/-- `Regex::replace_all(pattern, "")` for a literal pattern `p`: remove every
leftmost non-overlapping occurrence of `p` from `s`. An empty pattern matches
only the empty string, so removing its matches leaves `s` unchanged. -/
def removeAll (p s : List Char) : List Char :=
  removeAllFuel p s.length s

/-- `str::trim`: remove leading and trailing whitespace. The source trims
Unicode whitespace; `Char.isWhitespace` covers the ASCII subset, which is all
these fields ever need. -/
def trimChars (l : List Char) : List Char :=
  List.rdropWhile Char.isWhitespace (List.dropWhile Char.isWhitespace l)

/-- `TextCleaner` after construction: the `enabled` flag and the compiled
pattern list (`TextCleaner::new` compiles patterns, skipping invalid ones, and
leaves the list empty when disabled; this structure holds the result). -/
structure TextCleaner where
  enabled : Bool
  patterns : List (List Char)
deriving DecidableEq, Repr

/-- `TextCleaner::clean` (src/text_cleanup.rs:40-52): identity when disabled;
otherwise apply each pattern in order, removing all matches, then trim. -/
def TextCleaner.clean (c : TextCleaner) (text : String) : String :=
  if c.enabled = false then text
  else
    String.mk (trimChars (c.patterns.foldl (fun acc p => removeAll p acc) text.data))

/-- `TextCleaner::clean_option` (src/text_cleanup.rs:55-57). -/
def TextCleaner.clean_option (c : TextCleaner) (text : Option String) : Option String :=
  text.map (fun s => c.clean s)

/-! ## Configuration (`src/config.rs`) -/

/-- `AppFilteringConfig` (src/config.rs:75-88). `allowed_apps` and
`ignored_apps` are `Vec<String>` in the source, hence lists here. -/
structure AppFilteringConfig where
  prompt_for_new_apps : Bool
  scrobble_unknown : Bool
  allowed_apps : List String
  ignored_apps : List String
deriving DecidableEq, Repr

/-- `LastFmConfig` (src/config.rs:59-65). -/
structure LastFmConfig where
  enabled : Bool
  api_key : String
  api_secret : String
  session_key : String
deriving DecidableEq, Repr

/-- `ListenBrainzConfig` (src/config.rs:67-73). -/
structure ListenBrainzConfig where
  enabled : Bool
  name : String
  token : String
  api_url : String
deriving DecidableEq, Repr

/-- `CleanupConfig` (src/config.rs:33-41). -/
structure CleanupConfig where
  enabled : Bool
  patterns : List (List Char)
deriving DecidableEq, Repr

/-- `Config` (src/config.rs:10-31). `refresh_interval : u64` and
`scrobble_threshold : u8` are modelled as `Nat`. -/
structure Config where
  refresh_interval : Nat
  scrobble_threshold : Nat
  cleanup : CleanupConfig
  app_filtering : AppFilteringConfig
  lastfm : Option LastFmConfig
  listenbrainz : List ListenBrainzConfig
deriving DecidableEq, Repr

/-- The Last.fm section of `Config::validate` (src/config.rs:197-206). -/
def validateLastfm : Option LastFmConfig → Except String Unit
  | none => Except.ok ()
  | some l =>
    if l.enabled then
      if l.api_key.isEmpty then
        Except.error "Last.fm api_key is required when Last.fm is enabled"
      else if l.api_secret.isEmpty then
        Except.error "Last.fm api_secret is required when Last.fm is enabled"
      else Except.ok ()
    else Except.ok ()

/-- The ListenBrainz loop of `Config::validate` (src/config.rs:209-218). -/
def validateListenbrainz : List ListenBrainzConfig → Except String Unit
  | [] => Except.ok ()
  | lb :: rest =>
    if lb.enabled then
      if lb.token.isEmpty then
        Except.error "ListenBrainz token is required when enabled"
      else if lb.api_url.isEmpty then
        Except.error "ListenBrainz api_url is required"
      else validateListenbrainz rest
    else validateListenbrainz rest

/-- The app-filtering conflict loop of `Config::validate`
(src/config.rs:221-228): the first bundle id found in both lists aborts
validation with an error. -/
def checkAppOverlap : List String → List String → Except String Unit
  | [], _ => Except.ok ()
  | b :: rest, ignored =>
    if ignored.contains b then
      Except.error "Bundle ID appears in both allowed_apps and ignored_apps"
    else checkAppOverlap rest ignored

/-- `Config::validate` (src/config.rs:177-231). The `log::warn!` when no
service is enabled produces no error and is omitted. -/
def Config.validate (c : Config) : Except String Unit :=
  if c.refresh_interval = 0 then
    Except.error "refresh_interval must be greater than 0"
  else if c.scrobble_threshold = 0 ∨ 100 < c.scrobble_threshold then
    Except.error "scrobble_threshold must be between 1 and 100"
  else
    match validateLastfm c.lastfm with
    | Except.error e => Except.error e
    | Except.ok () =>
      match validateListenbrainz c.listenbrainz with
      | Except.error e => Except.error e
      | Except.ok () =>
        checkAppOverlap c.app_filtering.allowed_apps c.app_filtering.ignored_apps

/-! ## Tracks (`src/scrobbler.rs`) and snapshots -/

/-- `Track` (src/scrobbler.rs:84-90). Derived `PartialEq` compares all four
fields; `MediaMonitor::poll` compares only title/artist/album. -/
structure Track where
  title : String
  artist : String
  album : Option String
  duration : Option Nat
deriving DecidableEq, Repr

/-- `media_remote::NowPlayingInfo`, restricted to the fields
`media_monitor.rs` reads, plus `update_token`. The specification's data model
gives every snapshot an `update_token?` field; the source's `NowPlayingInfo`
exposes no such field and `media_monitor.rs` never reads a token. It is
included here only so that claims about it can be stated; no definition in
this file reads it. The source's `duration` is a float cast with `as u64`;
it is modelled directly in whole seconds. -/
structure NowPlayingInfo where
  title : Option String
  artist : Option String
  album : Option String
  duration : Option Nat
  is_playing : Option Bool
  bundle_id : Option String
  update_token : Option Nat
deriving DecidableEq, Repr

/-! ## Media monitor (`src/media_monitor.rs`) -/

/-- `MIN_TRACK_DURATION` (src/media_monitor.rs:14). -/
def MIN_TRACK_DURATION : Nat := 30

/-- `SCROBBLE_TIME_THRESHOLD` (src/media_monitor.rs:15). -/
def SCROBBLE_TIME_THRESHOLD : Nat := 240

/-- `AppFilterAction` (src/media_monitor.rs:18-23). -/
inductive AppFilterAction where
  | Allow
  | Ignore
  | PromptUser
deriving DecidableEq, Repr

/-- `PlaySession` (src/media_monitor.rs:26-34). -/
structure PlaySession where
  track : Track
  bundle_id : Option String
  started_at : Int
  duration : Nat
  scrobbled : Bool
  now_playing_sent : Bool
deriving DecidableEq, Repr

/-- `PlaySession::new` (src/media_monitor.rs:37-46); `Utc::now()` is the
explicit `now` argument. -/
def PlaySession.new (track : Track) (bundle_id : Option String) (duration : Nat)
    (now : Int) : PlaySession :=
  { track := track
    bundle_id := bundle_id
    started_at := now
    duration := duration
    scrobbled := false
    now_playing_sent := false }

/-- `PlaySession::elapsed_seconds` (src/media_monitor.rs:49-52):
`(now - started_at).num_seconds().max(0) as u64`. `Int.toNat` is exactly the
floor at zero. -/
def PlaySession.elapsed_seconds (s : PlaySession) (now : Int) : Nat :=
  (now - s.started_at).toNat

/-- `PlaySession::should_scrobble` (src/media_monitor.rs:55-72). The `u64`
product `self.duration * threshold_percent as u64` wraps on overflow, hence
the explicit `% 2 ^ 64`. -/
def PlaySession.should_scrobble (s : PlaySession) (threshold_percent : Nat)
    (now : Int) : Bool :=
  if s.scrobbled then false
  else if s.duration < MIN_TRACK_DURATION then false
  else
    let elapsed := s.elapsed_seconds now
    let threshold_time := s.duration * threshold_percent % 2 ^ 64 / 100
    let scrobble_at := min threshold_time SCROBBLE_TIME_THRESHOLD
    decide (scrobble_at ≤ elapsed)

/-- `PlaySession::should_send_now_playing` (src/media_monitor.rs:75-77). -/
def PlaySession.should_send_now_playing (s : PlaySession) : Bool :=
  !s.now_playing_sent

/-- The configuration part of `MediaMonitor` (src/media_monitor.rs:81-87):
everything except the snapshot source handle and the mutable
`current_session`, which the pure `poll` below threads explicitly. -/
structure MediaMonitor where
  scrobble_threshold : Nat
  text_cleaner : TextCleaner
  app_filtering : AppFilteringConfig
deriving Repr

/-- `MediaMonitor::should_scrobble_app` (src/media_monitor.rs:101-137). -/
def MediaMonitor.should_scrobble_app (m : MediaMonitor) (bundle_id : Option String) :
    AppFilterAction :=
  match bundle_id with
  | none =>
    if m.app_filtering.scrobble_unknown then AppFilterAction.Allow
    else AppFilterAction.Ignore
  | some id =>
    if id.isEmpty then
      if m.app_filtering.scrobble_unknown then AppFilterAction.Allow
      else AppFilterAction.Ignore
    else if m.app_filtering.allowed_apps.contains id then AppFilterAction.Allow
    else if m.app_filtering.ignored_apps.contains id then AppFilterAction.Ignore
    else if m.app_filtering.prompt_for_new_apps then AppFilterAction.PromptUser
    else AppFilterAction.Allow

/-- `MediaMonitor::media_info_to_track` (src/media_monitor.rs:140-156):
requires title and artist, cleans the text fields, keeps the duration. -/
def MediaMonitor.media_info_to_track (m : MediaMonitor) (info : NowPlayingInfo) :
    Option Track :=
  match info.title, info.artist with
  | some title, some artist =>
    some { title := m.text_cleaner.clean title
           artist := m.text_cleaner.clean artist
           album := m.text_cleaner.clean_option info.album
           duration := info.duration }
  | _, _ => none

/-- `MediaEvents` (src/media_monitor.rs:265-270). -/
structure MediaEvents where
  now_playing : Option (Track × Option String)
  scrobble : Option (Track × Int × Option String)
  unknown_app : Option String
deriving DecidableEq, Repr

/-- `MediaEvents::default()`: all fields `None`. -/
def MediaEvents.default : MediaEvents :=
  { now_playing := none, scrobble := none, unknown_app := none }

/-- The track-change test inside `MediaMonitor::poll`
(src/media_monitor.rs:204-212): a new session starts iff there is no session
or the title, artist or album differs. No other snapshot field (in
particular no update token) takes part. -/
def isNewTrack (sess : Option PlaySession) (track : Track) : Bool :=
  match sess with
  | none => true
  | some session =>
    session.track.title != track.title
      || session.track.artist != track.artist
      || session.track.album != track.album

/-- `MediaMonitor::poll` (src/media_monitor.rs:159-261) as a pure transition:
given the configuration, the current session, the snapshot captured for this
tick (`none` when the media endpoint reports nothing) and the wall clock,
return the next session and the emitted events. -/
def MediaMonitor.poll (m : MediaMonitor) (sess : Option PlaySession)
    (media_info : Option NowPlayingInfo) (now : Int) :
    Option PlaySession × MediaEvents :=
  match media_info with
  | some info =>
    -- `is_playing.unwrap_or(false)`
    if (info.is_playing.getD false) = false then
      -- paused or stopped: keep the session, emit nothing
      (sess, MediaEvents.default)
    else
      match m.media_info_to_track info with
      | none => (sess, MediaEvents.default)
      | some track =>
        let duration := track.duration.getD 0
        let bundle_id := info.bundle_id
        match m.should_scrobble_app bundle_id with
        | AppFilterAction.Ignore => (sess, MediaEvents.default)
        | AppFilterAction.PromptUser =>
          match bundle_id with
          | some id => (sess, { MediaEvents.default with unknown_app := some id })
          | none => (sess, MediaEvents.default)
        | AppFilterAction.Allow =>
          if isNewTrack sess track then
            let new_session :=
              { PlaySession.new track bundle_id duration now with now_playing_sent := true }
            (some new_session,
             { MediaEvents.default with now_playing := some (track, bundle_id) })
          else
            match sess with
            | some session =>
              if session.should_scrobble m.scrobble_threshold now then
                (some { session with scrobbled := true },
                 { MediaEvents.default with
                     scrobble := some (session.track, session.started_at, session.bundle_id) })
              else if session.should_send_now_playing then
                (some { session with now_playing_sent := true },
                 { MediaEvents.default with
                     now_playing := some (session.track, session.bundle_id) })
              else (some session, MediaEvents.default)
            | none => (none, MediaEvents.default)
  | none =>
    -- no media playing: clear the session
    (none, MediaEvents.default)

/-! ## Backend services (`src/scrobbler.rs`) -/

/-- `Service` (src/scrobbler.rs:93-96), reduced to its variant tag: the
credential and client handles play no role in which data is submitted. -/
inductive Service where
  | lastFm
  | listenBrainz (name : String)
deriving DecidableEq, Repr

/-- The listen record a service submits for a scrobble. -/
structure SubmittedListen where
  artist : String
  title : String
  album : Option String
  listened_at : Int
deriving DecidableEq, Repr

/-- What `Service::scrobble` (src/scrobbler.rs:144-165) submits. The Last.fm
branch builds a `Scrobble` and sets `with_timestamp(timestamp)`. The
ListenBrainz branch calls the client's `listen`, which — as the source's own
comment on line 156 records — stamps the listen with the current time instead
of the given timestamp; `now` models the wall clock at submission time. -/
def Service.scrobbleSubmission (svc : Service) (track : Track) (timestamp : Int)
    (now : Int) : SubmittedListen :=
  match svc with
  | Service.lastFm =>
    { artist := track.artist, title := track.title, album := track.album
      listened_at := timestamp }
  | Service.listenBrainz _ =>
    { artist := track.artist, title := track.title, album := track.album
      listened_at := now }

/-! ## The background dispatch loop (`src/main.rs:160-213`) -/

/-- The transport behaviour of one configured service: for each operation,
the outcome (`true` = `Ok`) the network would return on the n-th attempt.
Indexing outcomes by attempt number lets the embedding record how many
attempts the dispatch code actually makes. -/
structure ServiceTransport where
  now_playing_outcome : Nat → Bool
  scrobble_outcome : Nat → Bool

/-- A single transport invocation as the dispatch loop performs it
(`if let Err(e) = scrobbler.scrobble(..) { log::error!(..) }`): exactly one
attempt (attempt 0) is made and its outcome is only logged. Returns the
outcome and the number of attempts made. -/
def callOnce (outcome : Nat → Bool) : Bool × Nat :=
  (outcome 0, 1)

/-- The per-event dispatch of `main`'s background loop (src/main.rs:161-208):
when a now-playing event is present, every configured service's `now_playing`
is invoked once in order (src/main.rs:172-176); when a scrobble event is
present, every configured service's `scrobble` is invoked once in order
(src/main.rs:193-197). Errors are logged and do not stop the loop. Returns
the per-service (outcome, attempts) lists for the two operations. -/
def dispatchEvents (services : List ServiceTransport) (ev : MediaEvents) :
    List (Bool × Nat) × List (Bool × Nat) :=
  ( match ev.now_playing with
    | some _ => services.map (fun s => callOnce s.now_playing_outcome)
    | none => []
  , match ev.scrobble with
    | some _ => services.map (fun s => callOnce s.scrobble_outcome)
    | none => [] )

/-- Modelled from the spec: the exponential-backoff retry combinator of
§4.4/§9 (`{max_elapsed, base_delay, multiplier}` consumed by a generic
"retry until budget exhausted" loop), absent from the source. Attempt `n` is
made, then the loop sleeps `delay` and doubles it, stopping when the budget
`max_elapsed` would be exceeded. Returns the final outcome and the number of
attempts. -/
def retryGo (outcome : Nat → Bool) (max_elapsed : Nat) :
    Nat → Nat → Nat → Nat → Bool × Nat
  | 0, _, _, n => (false, n)
  | fuel + 1, elapsed, delay, n =>
    if outcome n then (true, n + 1)
    else if max_elapsed < elapsed + delay then (false, n + 1)
    else retryGo outcome max_elapsed fuel (elapsed + delay) (delay * 2) (n + 1)

/-- Modelled from the spec: retry a transport call under an exponential
backoff policy with total budget `max_elapsed` seconds and base delay
`base_delay` seconds. -/
def retryCall (max_elapsed base_delay : Nat) (outcome : Nat → Bool) : Bool × Nat :=
  retryGo outcome max_elapsed (max_elapsed + 1) 0 base_delay 0

/-- Modelled from the spec: the dispatch loop as §4.4 describes it, with each
transport call wrapped in the backoff policy — a ≈10 s budget for now-playing
updates and a ≈30 s budget for scrobbles. -/
def dispatchEventsRetry (services : List ServiceTransport) (ev : MediaEvents) :
    List (Bool × Nat) × List (Bool × Nat) :=
  ( match ev.now_playing with
    | some _ => services.map (fun s => retryCall 10 1 s.now_playing_outcome)
    | none => []
  , match ev.scrobble with
    | some _ => services.map (fun s => retryCall 30 1 s.scrobble_outcome)
    | none => [] )

/-! ## Poll sequences -/

/-- Iterate `MediaMonitor::poll` over a list of (snapshot, clock) ticks,
collecting the events of every poll. -/
def MediaMonitor.pollSeq (m : MediaMonitor) (sess : Option PlaySession) :
    List (Option NowPlayingInfo × Int) → Option PlaySession × List MediaEvents
  | [] => (sess, [])
  | (mi, now) :: rest =>
    let r := m.poll sess mi now
    let r' := m.pollSeq r.1 rest
    (r'.1, r.2 :: r'.2)

/-- Number of polls in a run that emitted a scrobble event. -/
def countScrobbles (evs : List MediaEvents) : Nat :=
  (evs.filter (fun e => e.scrobble.isSome)).length

/-- A tick that continues a session for the track `tr`: the snapshot is
present, reports `is_playing = true`, and yields a `Track` whose title,
artist and album all equal `tr`'s. -/
def sameTrackStep (m : MediaMonitor) (tr : Track) (step : Option NowPlayingInfo × Int) :
    Bool :=
  match step.1 with
  | none => false
  | some info =>
    (info.is_playing.getD false)
      && (match m.media_info_to_track info with
          | some t => t.title == tr.title && t.artist == tr.artist && t.album == tr.album
          | none => false)

/-! ## The App Filter as the specification words it (§4.2) -/

/-- Modelled from the spec: the four ordered classification rules of §4.2,
written from the spec's words, to be compared with the source's
`MediaMonitor::should_scrobble_app`. -/
def classifySpec (cfg : AppFilteringConfig) (app_id : Option String) : AppFilterAction :=
  match app_id with
  | none => if cfg.scrobble_unknown then AppFilterAction.Allow else AppFilterAction.Ignore
  | some id =>
    if id = "" then
      if cfg.scrobble_unknown then AppFilterAction.Allow else AppFilterAction.Ignore
    else if id ∈ cfg.allowed_apps then AppFilterAction.Allow
    else if id ∈ cfg.ignored_apps then AppFilterAction.Ignore
    else if cfg.prompt_for_new_apps then AppFilterAction.PromptUser
    else AppFilterAction.Allow

/-! ## Helper lemmas -/

/-- Trimming is idempotent: the trimmed string has no leading or trailing
whitespace left, so a second trim changes nothing. -/
lemma trimChars_idem (l : List Char) : trimChars (trimChars l) = trimChars l := by
  unfold trimChars
  have hdrop :
      List.dropWhile Char.isWhitespace
        (List.rdropWhile Char.isWhitespace (List.dropWhile Char.isWhitespace l)) =
      List.rdropWhile Char.isWhitespace (List.dropWhile Char.isWhitespace l) := by
    rw [List.dropWhile_eq_self_iff]
    intro hl
    have hpre := List.rdropWhile_prefix Char.isWhitespace
      (List.dropWhile Char.isWhitespace l)
    have hlen : 0 < (List.dropWhile Char.isWhitespace l).length :=
      Nat.lt_of_lt_of_le hl hpre.length_le
    have hnot := List.dropWhile_get_zero_not (p := Char.isWhitespace) l hlen
    simpa [List.get_eq_getElem, hpre.getElem hl] using hnot
  rw [hdrop, List.rdropWhile_idempotent]

lemma checkAppOverlap_error {l₁ l₂ : List String} {a : String}
    (h₁ : a ∈ l₁) (h₂ : a ∈ l₂) : ∃ e, checkAppOverlap l₁ l₂ = Except.error e := by
  induction l₁ with
  | nil => cases h₁
  | cons b rest ih =>
    by_cases hb : b ∈ l₂
    · exact ⟨"Bundle ID appears in both allowed_apps and ignored_apps",
        by simp [checkAppOverlap, hb]⟩
    · rcases List.mem_cons.mp h₁ with rfl | hmem
      · exact absurd h₂ hb
      · rcases ih hmem with ⟨e, he⟩
        exact ⟨e, by simp [checkAppOverlap, hb, he]⟩

lemma should_scrobble_iff (s : PlaySession) (tp : Nat) (now : Int) :
    s.should_scrobble tp now = true ↔
      s.scrobbled = false ∧ MIN_TRACK_DURATION ≤ s.duration ∧
        min (s.duration * tp % 2 ^ 64 / 100) SCROBBLE_TIME_THRESHOLD
          ≤ s.elapsed_seconds now := by
  unfold PlaySession.should_scrobble
  cases hsc : s.scrobbled <;> simp [hsc]

lemma should_scrobble_scrobbled_false {s : PlaySession} {tp : Nat} {now : Int}
    (h : s.should_scrobble tp now = true) : s.scrobbled = false :=
  ((should_scrobble_iff s tp now).mp h).1

/-- Whenever `poll` emits a scrobble event, the previous session exists and
is unscrobbled, the event carries its track, its `started_at` and its bundle
id, and the next session is the same session with `scrobbled := true`. -/
lemma poll_scrobble_eq (m : MediaMonitor) (sess : Option PlaySession)
    (mi : Option NowPlayingInfo) (now : Int) (tr : Track) (ts : Int)
    (b : Option String)
    (h : (m.poll sess mi now).2.scrobble = some (tr, ts, b)) :
    ∃ s, sess = some s ∧ s.scrobbled = false ∧ tr = s.track ∧ ts = s.started_at ∧
      b = s.bundle_id ∧ (m.poll sess mi now).1 = some { s with scrobbled := true } := by
  rcases hpoll : m.poll sess mi now with ⟨sess2, ev⟩
  rw [hpoll] at h
  simp only at h ⊢
  unfold MediaMonitor.poll at hpoll
  split at hpoll
  rotate_left
  · injection hpoll with h1 h2; subst h1; subst h2; simp [MediaEvents.default] at h
  split at hpoll
  · injection hpoll with h1 h2; subst h1; subst h2; simp [MediaEvents.default] at h
  split at hpoll
  · injection hpoll with h1 h2; subst h1; subst h2; simp [MediaEvents.default] at h
  simp only [] at hpoll
  split at hpoll
  · injection hpoll with h1 h2; subst h1; subst h2; simp [MediaEvents.default] at h
  · split at hpoll <;>
      (injection hpoll with h1 h2; subst h1; subst h2; simp [MediaEvents.default] at h)
  · split at hpoll
    · injection hpoll with h1 h2; subst h1; subst h2
      simp [MediaEvents.default, PlaySession.new] at h
    · split at hpoll
      case h_1 session hnew =>
        split at hpoll
        case isTrue hsc =>
          injection hpoll with h1 h2; subst h1; subst h2
          simp only [MediaEvents.default, Option.some.injEq, Prod.mk.injEq] at h
          exact ⟨session, rfl, should_scrobble_scrobbled_false hsc,
            h.1.symm, h.2.1.symm, h.2.2.symm, rfl⟩
        case isFalse =>
          split at hpoll <;>
            (injection hpoll with h1 h2; subst h1; subst h2; simp [MediaEvents.default] at h)
      case h_2 =>
        injection hpoll with h1 h2; subst h1; subst h2; simp [MediaEvents.default] at h

/-- Under a same-track, playing, allowed snapshot, `poll` takes the
continuation branch: it never replaces the session, and either scrobbles,
sends a late now-playing, or does nothing. -/
lemma poll_continuation (m : MediaMonitor) (s : PlaySession) (info : NowPlayingInfo)
    (now : Int) (tr : Track)
    (hp : info.is_playing.getD false = true)
    (ht : m.media_info_to_track info = some tr)
    (ha : m.should_scrobble_app info.bundle_id = AppFilterAction.Allow)
    (h1 : tr.title = s.track.title) (h2 : tr.artist = s.track.artist)
    (h3 : tr.album = s.track.album) :
    m.poll (some s) (some info) now =
      if s.should_scrobble m.scrobble_threshold now then
        (some { s with scrobbled := true },
         { MediaEvents.default with
             scrobble := some (s.track, s.started_at, s.bundle_id) })
      else if s.should_send_now_playing then
        (some { s with now_playing_sent := true },
         { MediaEvents.default with
             now_playing := some (s.track, s.bundle_id) })
      else (some s, MediaEvents.default) := by
  have hnew : isNewTrack (some s) tr = false := by
    simp [isNewTrack, h1, h2, h3]
  simp only [MediaMonitor.poll, hp, ht, ha, hnew]
  simp

/-- A poll whose snapshot is filtered as `Ignore` changes nothing and emits
nothing (this also covers the paused and no-track cases of the same call). -/
lemma poll_filter_ignore (m : MediaMonitor) (sess : Option PlaySession)
    (info : NowPlayingInfo) (now : Int)
    (ha : m.should_scrobble_app info.bundle_id = AppFilterAction.Ignore) :
    m.poll sess (some info) now = (sess, MediaEvents.default) := by
  by_cases hp2 : (info.is_playing.getD false) = false <;>
    cases hmt : m.media_info_to_track info <;>
      simp [MediaMonitor.poll, hp2, hmt, ha]

/-- A poll whose snapshot is filtered as `PromptUser` leaves the session
unchanged and emits no scrobble. -/
lemma poll_filter_prompt (m : MediaMonitor) (sess : Option PlaySession)
    (info : NowPlayingInfo) (now : Int)
    (ha : m.should_scrobble_app info.bundle_id = AppFilterAction.PromptUser) :
    (m.poll sess (some info) now).1 = sess ∧
      (m.poll sess (some info) now).2.scrobble = none := by
  by_cases hp2 : (info.is_playing.getD false) = false <;>
    cases hmt : m.media_info_to_track info <;>
      cases hb : info.bundle_id <;>
        · rw [hb] at ha
          simp [MediaMonitor.poll, hp2, hmt, ha, hb, MediaEvents.default]

/-- One same-track, playing tick: the session survives with its track intact,
and either no scrobble is emitted and the `scrobbled` flag is preserved, or
the session was unscrobbled and becomes scrobbled. -/
lemma poll_same_track_cases (m : MediaMonitor) (s : PlaySession)
    (info : NowPlayingInfo) (now : Int)
    (h : sameTrackStep m s.track (some info, now) = true) :
    ∃ s2, (m.poll (some s) (some info) now).1 = some s2 ∧ s2.track = s.track ∧
      (((m.poll (some s) (some info) now).2.scrobble = none ∧
          s2.scrobbled = s.scrobbled) ∨
        (s.scrobbled = false ∧ s2.scrobbled = true)) := by
  simp only [sameTrackStep] at h
  rw [Bool.and_eq_true] at h
  obtain ⟨hp, hmatch⟩ := h
  cases hmt : m.media_info_to_track info with
  | none => rw [hmt] at hmatch; simp at hmatch
  | some t =>
    rw [hmt] at hmatch
    simp only [Bool.and_eq_true, beq_iff_eq] at hmatch
    obtain ⟨⟨e1, e2⟩, e3⟩ := hmatch
    cases ha : m.should_scrobble_app info.bundle_id with
    | Ignore =>
      rw [poll_filter_ignore m (some s) info now ha]
      exact ⟨s, rfl, rfl, Or.inl ⟨rfl, rfl⟩⟩
    | PromptUser =>
      have hpp := poll_filter_prompt m (some s) info now ha
      exact ⟨s, hpp.1, rfl, Or.inl ⟨hpp.2, rfl⟩⟩
    | Allow =>
      rw [poll_continuation m s info now t hp hmt ha e1 e2 e3]
      by_cases hsc : s.should_scrobble m.scrobble_threshold now = true
      · rw [if_pos hsc]
        exact ⟨{ s with scrobbled := true }, rfl, rfl,
          Or.inr ⟨should_scrobble_scrobbled_false hsc, rfl⟩⟩
      · rw [if_neg hsc]
        by_cases hnp : s.should_send_now_playing = true
        · rw [if_pos hnp]
          exact ⟨{ s with now_playing_sent := true }, rfl, rfl, Or.inl ⟨rfl, rfl⟩⟩
        · rw [if_neg hnp]
          exact ⟨s, rfl, rfl, Or.inl ⟨rfl, rfl⟩⟩

lemma countScrobbles_cons (e : MediaEvents) (l : List MediaEvents) :
    countScrobbles (e :: l) =
      (if e.scrobble.isSome then 1 else 0) + countScrobbles l := by
  by_cases h : e.scrobble.isSome = true <;>
    simp [countScrobbles, List.filter_cons, h, Nat.add_comm]

/-- Invariant run of same-track playing polls: starting scrobbled means no
scrobble is ever emitted, and in any case at most one is. -/
lemma pollSeq_same_track (m : MediaMonitor)
    (steps : List (Option NowPlayingInfo × Int)) :
    ∀ s : PlaySession, steps.all (sameTrackStep m s.track) = true →
      (s.scrobbled = true → countScrobbles (m.pollSeq (some s) steps).2 = 0) ∧
      countScrobbles (m.pollSeq (some s) steps).2 ≤ 1 := by
  induction steps with
  | nil =>
    intro s _
    simp [MediaMonitor.pollSeq, countScrobbles]
  | cons step rest ih =>
    intro s hall
    rw [List.all_cons, Bool.and_eq_true] at hall
    obtain ⟨hstep, hrest⟩ := hall
    obtain ⟨mi, now⟩ := step
    cases mi with
    | none => simp [sameTrackStep] at hstep
    | some info =>
      obtain ⟨s2, hs2, htrack, hdisj⟩ := poll_same_track_cases m s info now hstep
      have hrest2 : rest.all (sameTrackStep m s2.track) = true := by
        rw [htrack]; exact hrest
      have ih2 := ih s2 hrest2
      simp only [MediaMonitor.pollSeq]
      rw [hs2, countScrobbles_cons]
      rcases hdisj with ⟨hnone, hpres⟩ | ⟨hf, ht2⟩
      · rw [hnone]
        constructor
        · intro hscr
          have h0 := ih2.1 (hpres.trans hscr)
          simpa using h0
        · simpa using ih2.2
      · have hz := ih2.1 ht2
        constructor
        · intro hscr
          rw [hf] at hscr
          cases hscr
        · rw [hz]
          split <;> simp

/-- Under the continuation hypotheses, a scrobble event is emitted exactly
when `PlaySession::should_scrobble` says so. -/
lemma poll_continuation_scrobble (m : MediaMonitor) (s : PlaySession)
    (info : NowPlayingInfo) (now : Int) (tr : Track)
    (hp : info.is_playing.getD false = true)
    (ht : m.media_info_to_track info = some tr)
    (ha : m.should_scrobble_app info.bundle_id = AppFilterAction.Allow)
    (h1 : tr.title = s.track.title) (h2 : tr.artist = s.track.artist)
    (h3 : tr.album = s.track.album) :
    (m.poll (some s) (some info) now).2.scrobble.isSome =
      s.should_scrobble m.scrobble_threshold now := by
  rw [poll_continuation m s info now tr hp ht ha h1 h2 h3]
  by_cases hsc : s.should_scrobble m.scrobble_threshold now = true
  · simp [hsc]
  · rw [Bool.not_eq_true] at hsc
    by_cases hnp : s.should_send_now_playing = true <;>
      simp [hsc, hnp, MediaEvents.default]

/-! ### Concrete fixtures used by witnesses and counterexamples -/

/-- A monitor with cleanup disabled and permissive app filtering. -/
def monA : MediaMonitor :=
  { scrobble_threshold := 50
    text_cleaner := { enabled := false, patterns := [] }
    app_filtering :=
      { prompt_for_new_apps := true, scrobble_unknown := true
        allowed_apps := [], ignored_apps := [] } }

/-- A playing snapshot for a 200-second track from an unnamed app. -/
def infoA : NowPlayingInfo :=
  { title := some "Song", artist := some "Artist", album := none
    duration := some 200, is_playing := some true, bundle_id := none
    update_token := some 1 }

/-- The track `infoA` yields under `monA`. -/
def trackA : Track :=
  { title := "Song", artist := "Artist", album := none, duration := some 200 }

/-- A session for `trackA` started at time 1000, not yet scrobbled, with the
now-playing notification already sent. -/
def sessA : PlaySession :=
  { track := trackA, bundle_id := none, started_at := 1000, duration := 200
    scrobbled := false, now_playing_sent := true }

/-- C1: over any sequence of polls that continue one session — every tick a
playing snapshot yielding the session's own track — `poll` emits at most one
scrobble event, and none at all once the session's `scrobbled` flag is set:
`ActiveScrobbled` is terminal for the current track. -/
theorem at_most_one_scrobble_per_session (m : MediaMonitor) (s0 : PlaySession)
    (steps : List (Option NowPlayingInfo × Int))
    (hall : steps.all (sameTrackStep m s0.track) = true) :
    countScrobbles (m.pollSeq (some s0) steps).2 ≤ 1 ∧
      (s0.scrobbled = true → countScrobbles (m.pollSeq (some s0) steps).2 = 0) :=
  ⟨(pollSeq_same_track m steps s0 hall).2, (pollSeq_same_track m steps s0 hall).1⟩

/-- C1 (witness): three continuation ticks of a 200-second track (threshold
50%) starting 50 s in: the threshold is crossed at the second tick, a single
scrobble is emitted, and the bound holds. -/
theorem at_most_one_scrobble_per_session_witness :
    ([(some infoA, (1050 : Int)), (some infoA, 1100), (some infoA, 1150)].all
        (sameTrackStep monA sessA.track) = true) ∧
      countScrobbles
        (monA.pollSeq (some sessA)
          [(some infoA, 1050), (some infoA, 1100), (some infoA, 1150)]).2 ≤ 1 ∧
      countScrobbles
        (monA.pollSeq (some sessA)
          [(some infoA, 1050), (some infoA, 1100), (some infoA, 1150)]).2 = 1 :=
  ⟨by decide,
   (at_most_one_scrobble_per_session monA sessA
      [(some infoA, 1050), (some infoA, 1100), (some infoA, 1150)] (by decide)).1,
   by decide⟩

/-- C2: on a same-session continuation poll, a scrobble event is emitted iff
the session is unscrobbled, its duration is at least 30 s, and the elapsed
time (floored at 0) reaches `min(duration * threshold_percent / 100, 240)`
(the `u64` product wraps at `2 ^ 64`); in particular a 200 s track at 50%
fires at elapsed ≥ 100, a 600 s track at 80% fires at elapsed ≥ 240, and a
20 s track never fires. -/
theorem scrobble_eligibility (m : MediaMonitor) (s : PlaySession)
    (info : NowPlayingInfo) (now : Int) (tr : Track)
    (hp : info.is_playing.getD false = true)
    (ht : m.media_info_to_track info = some tr)
    (ha : m.should_scrobble_app info.bundle_id = AppFilterAction.Allow)
    (h1 : tr.title = s.track.title) (h2 : tr.artist = s.track.artist)
    (h3 : tr.album = s.track.album) :
    ((m.poll (some s) (some info) now).2.scrobble.isSome = true ↔
      (s.scrobbled = false ∧ 30 ≤ s.duration ∧
        min (s.duration * m.scrobble_threshold % 2 ^ 64 / 100) 240
          ≤ (now - s.started_at).toNat))
    ∧ (s.scrobbled = false → s.duration = 200 → m.scrobble_threshold = 50 →
        ((m.poll (some s) (some info) now).2.scrobble.isSome = true ↔
          100 ≤ (now - s.started_at).toNat))
    ∧ (s.scrobbled = false → s.duration = 600 → m.scrobble_threshold = 80 →
        ((m.poll (some s) (some info) now).2.scrobble.isSome = true ↔
          240 ≤ (now - s.started_at).toNat))
    ∧ (s.duration = 20 → (m.poll (some s) (some info) now).2.scrobble = none) := by
  have hiff :
      ((m.poll (some s) (some info) now).2.scrobble.isSome = true ↔
        (s.scrobbled = false ∧ 30 ≤ s.duration ∧
          min (s.duration * m.scrobble_threshold % 2 ^ 64 / 100) 240
            ≤ (now - s.started_at).toNat)) := by
    rw [poll_continuation_scrobble m s info now tr hp ht ha h1 h2 h3,
      should_scrobble_iff]
    rfl
  refine ⟨hiff, ?_, ?_, ?_⟩
  · intro hscr hd hthr
    rw [hiff, hd, hthr, hscr]
    norm_num
  · intro hscr hd hthr
    rw [hiff, hd, hthr, hscr]
    norm_num
  · intro hd
    rw [← Option.not_isSome_iff_eq_none, Bool.not_eq_true, ← Bool.not_eq_true]
    intro hsome
    have := hiff.mp hsome
    omega

/-- C2 (witness): for the concrete fixture (200 s track, 50% threshold,
session started at 1000, poll at 1100 → elapsed 100) all four conjuncts are
discharged and the scrobble indeed fires. -/
theorem scrobble_eligibility_witness :
    ((monA.poll (some sessA) (some infoA) 1100).2.scrobble.isSome = true ↔
      (sessA.scrobbled = false ∧ 30 ≤ sessA.duration ∧
        min (sessA.duration * monA.scrobble_threshold % 2 ^ 64 / 100) 240
          ≤ ((1100 : Int) - sessA.started_at).toNat)) ∧
      (monA.poll (some sessA) (some infoA) 1100).2.scrobble.isSome = true :=
  ⟨(scrobble_eligibility monA sessA infoA 1100 trackA (by decide) (by decide)
      (by decide) (by decide) (by decide) (by decide)).1,
   by decide⟩

/-- C3: pausing (snapshot present, `is_playing = false`) preserves the
session with every field unchanged and emits nothing; an entirely absent
snapshot destroys the session; and a later playing snapshot for the same
track continues the same session — same `started_at`, same track — rather
than starting a new one. -/
theorem pause_preserves_session (m : MediaMonitor) (s : PlaySession)
    (info : NowPlayingInfo) (now : Int) :
    (info.is_playing.getD false = false →
      m.poll (some s) (some info) now = (some s, MediaEvents.default))
    ∧ m.poll (some s) none now = (none, MediaEvents.default)
    ∧ (∀ info2 now2 tr, info2.is_playing.getD false = true →
        m.media_info_to_track info2 = some tr →
        m.should_scrobble_app info2.bundle_id = AppFilterAction.Allow →
        tr.title = s.track.title → tr.artist = s.track.artist →
        tr.album = s.track.album →
        ∃ s2, (m.poll (some s) (some info2) now2).1 = some s2 ∧
          s2.started_at = s.started_at ∧ s2.track = s.track) := by
  refine ⟨?_, rfl, ?_⟩
  · intro hp
    simp [MediaMonitor.poll, hp]
  · intro info2 now2 tr hp ht ha h1 h2 h3
    rw [poll_continuation m s info2 now2 tr hp ht ha h1 h2 h3]
    by_cases hsc : s.should_scrobble m.scrobble_threshold now2 = true
    · rw [if_pos hsc]
      exact ⟨_, rfl, rfl, rfl⟩
    · rw [if_neg hsc]
      by_cases hnp : s.should_send_now_playing = true
      · rw [if_pos hnp]
        exact ⟨_, rfl, rfl, rfl⟩
      · rw [if_neg hnp]
        exact ⟨_, rfl, rfl, rfl⟩

/-- C3 (witness): a paused snapshot leaves the concrete session untouched,
an absent snapshot clears it, and resuming at time 1001 continues the
session started at 1000. -/
theorem pause_preserves_session_witness :
    monA.poll (some sessA) (some { infoA with is_playing := some false }) 1050
      = (some sessA, MediaEvents.default)
    ∧ monA.poll (some sessA) none 1050 = (none, MediaEvents.default)
    ∧ ∃ s2, (monA.poll (some sessA) (some infoA) 1001).1 = some s2 ∧
        s2.started_at = sessA.started_at ∧ s2.track = sessA.track := by
  have h := pause_preserves_session monA sessA
    { infoA with is_playing := some false } 1050
  exact ⟨h.1 (by decide), h.2.1,
    h.2.2 infoA 1001 trackA (by decide) (by decide) (by decide) (by decide)
      (by decide) (by decide)⟩

/-- C4 (counterexample): the claim requires that a changed `update_token`
with identical Track fields starts a new session (fresh `started_at = now`,
`scrobbled = false`, wholesale replacement, `now_playing_event` emitted).
In the code the token never takes part in the track-change test: after a
session is created at time 1000 from a snapshot with token 1, a playing
snapshot at time 1001 with token 2 and identical title/artist/album leaves
the session bit-for-bit unchanged (`started_at` still 1000) and emits no
event at all. -/
theorem token_change_same_track_cx :
    (monA.poll none (some infoA) 1000).1 = some
      { track := trackA, bundle_id := none, started_at := 1000, duration := 200
        scrobbled := false, now_playing_sent := true }
    ∧ monA.poll (monA.poll none (some infoA) 1000).1
        (some { infoA with update_token := some 2 }) 1001
      = ((monA.poll none (some infoA) 1000).1, MediaEvents.default) := by
  decide

/-- C4 (amended): for an allowed, playing poll, a new session is created —
replacing any existing one wholesale with `scrobbled = false` and a
now-playing event — iff no session exists or the constructed Track's title,
artist or album differs from the session's; the snapshot's `update_token` is
never consulted, so a changed token with identical Track fields continues
the existing session. -/
theorem new_session_condition (m : MediaMonitor) (sess : Option PlaySession)
    (info : NowPlayingInfo) (now : Int) (tr : Track)
    (hp : info.is_playing.getD false = true)
    (ht : m.media_info_to_track info = some tr)
    (ha : m.should_scrobble_app info.bundle_id = AppFilterAction.Allow) :
    (isNewTrack sess tr = true ↔
      sess = none ∨ ∃ s, sess = some s ∧
        (s.track.title ≠ tr.title ∨ s.track.artist ≠ tr.artist ∨
          s.track.album ≠ tr.album))
    ∧ (isNewTrack sess tr = true →
        m.poll sess (some info) now =
          (some { PlaySession.new tr info.bundle_id (tr.duration.getD 0) now with
                    now_playing_sent := true },
           { MediaEvents.default with now_playing := some (tr, info.bundle_id) }))
    ∧ (∀ s, sess = some s → isNewTrack sess tr = false →
        ∃ s2, (m.poll sess (some info) now).1 = some s2 ∧
          s2.started_at = s.started_at ∧ s2.track = s.track)
    ∧ (∀ u, m.poll sess (some { info with update_token := u }) now
        = m.poll sess (some info) now) := by
  have hiff : isNewTrack sess tr = true ↔
      sess = none ∨ ∃ s, sess = some s ∧
        (s.track.title ≠ tr.title ∨ s.track.artist ≠ tr.artist ∨
          s.track.album ≠ tr.album) := by
    cases sess <;> simp [isNewTrack, bne_iff_ne, or_assoc]
  refine ⟨hiff, ?_, ?_, ?_⟩
  · intro hnew
    simp [MediaMonitor.poll, hp, ht, ha, hnew, MediaEvents.default]
  · intro s hs hfalse
    subst hs
    have hD : ¬ ((some s : Option PlaySession) = none ∨
        ∃ s2, (some s : Option PlaySession) = some s2 ∧
          (s2.track.title ≠ tr.title ∨ s2.track.artist ≠ tr.artist ∨
            s2.track.album ≠ tr.album)) := by
      intro hd
      rw [hiff.mpr hd] at hfalse
      cases hfalse
    have he : s.track.title = tr.title ∧ s.track.artist = tr.artist ∧
        s.track.album = tr.album := by
      by_contra hc
      exact hD (Or.inr ⟨s, rfl, by tauto⟩)
    obtain ⟨e1, e2, e3⟩ := he
    rw [poll_continuation m s info now tr hp ht ha e1.symm e2.symm e3.symm]
    by_cases hsc : s.should_scrobble m.scrobble_threshold now = true
    · rw [if_pos hsc]
      exact ⟨_, rfl, rfl, rfl⟩
    · rw [if_neg hsc]
      by_cases hnp : s.should_send_now_playing = true
      · rw [if_pos hnp]
        exact ⟨_, rfl, rfl, rfl⟩
      · rw [if_neg hnp]
        exact ⟨_, rfl, rfl, rfl⟩
  · intro u
    rfl

/-- C4 (witness for the amended claim): at the fixture, a same-track poll
continues the 1000-started session, and replacing the token by 7 changes
nothing about the poll's result. -/
theorem new_session_condition_witness :
    (∃ s2, (monA.poll (some sessA) (some infoA) 1001).1 = some s2 ∧
        s2.started_at = sessA.started_at ∧ s2.track = sessA.track)
    ∧ monA.poll (some sessA) (some { infoA with update_token := some 7 }) 1001
      = monA.poll (some sessA) (some infoA) 1001 := by
  have h := new_session_condition monA (some sessA) infoA 1001 trackA
    (by decide) (by decide) (by decide)
  exact ⟨h.2.2.1 sessA rfl (by decide), h.2.2.2 (some 7)⟩

/-- C7 (counterexample): the claim wraps each transport call in an
exponential-backoff retry policy (≈10 s for now-playing, ≈30 s for
scrobbles). The dispatch loop of `main` performs exactly one transport call
per service per event and only logs errors: for one always-failing service
and one scrobble event the code makes 1 attempt where the claimed policy
makes several, so the dispatch does not implement the claimed retry. -/
theorem dispatch_retry_cx :
    dispatchEvents
        [{ now_playing_outcome := fun _ => false, scrobble_outcome := fun _ => false }]
        { MediaEvents.default with scrobble := some (trackA, 1000, none) }
      ≠ dispatchEventsRetry
          [{ now_playing_outcome := fun _ => false, scrobble_outcome := fun _ => false }]
          { MediaEvents.default with scrobble := some (trackA, 1000, none) } := by
  decide

/-- C7 (amended): the dispatch loop performs exactly one transport attempt
per configured service for each present event, regardless of the outcome —
there is no retry policy at all (and so, trivially, no unbounded retry
loop); a failed call is logged and dropped. -/
theorem dispatch_single_attempt (services : List ServiceTransport)
    (ev : MediaEvents) :
    ((dispatchEvents services ev).1.all (fun r => r.2 == 1) = true)
    ∧ ((dispatchEvents services ev).2.all (fun r => r.2 == 1) = true) := by
  constructor <;>
    · simp only [dispatchEvents]
      split <;> simp [List.all_map, callOnce, Function.comp]

/-- C8: when a poll emits a scrobble event, the dispatch loop delivers it to
every configured service exactly once — the entry for a service at any
position is `(its own outcome at attempt 0, 1 attempt)`, whatever the
surrounding services do — the result list covers all configured services,
and the session's `scrobbled` flag was already set by `poll` itself, before
and independently of any dispatch outcome. -/
theorem dispatch_isolation (m : MediaMonitor) (sess : Option PlaySession)
    (mi : Option NowPlayingInfo) (now : Int)
    (xs ys : List ServiceTransport) (f : ServiceTransport)
    (h : (m.poll sess mi now).2.scrobble.isSome = true) :
    ((dispatchEvents (xs ++ f :: ys) (m.poll sess mi now).2).2[xs.length]? =
      some (f.scrobble_outcome 0, 1))
    ∧ ((dispatchEvents (xs ++ f :: ys) (m.poll sess mi now).2).2.length =
        xs.length + 1 + ys.length)
    ∧ (∃ s2, (m.poll sess mi now).1 = some s2 ∧ s2.scrobbled = true) := by
  obtain ⟨x, hx⟩ := Option.isSome_iff_exists.mp h
  obtain ⟨tr, ts, b⟩ := x
  obtain ⟨s, hs, hscr, htr, hts, hb, hres⟩ := poll_scrobble_eq m sess mi now tr ts b hx
  refine ⟨?_, ?_, ⟨_, hres, rfl⟩⟩
  · simp only [dispatchEvents, hx]
    rw [List.getElem?_map, List.getElem?_append_right (Nat.le_refl _)]
    simp [callOnce]
  · simp [dispatchEvents, hx]
    omega

/-- C8 (witness): with a failing first service and a succeeding second one,
the scrobble of the fixture poll is delivered to the second service (one
attempt, success) and the poll has already set `scrobbled`. -/
theorem dispatch_isolation_witness :
    ((dispatchEvents
        [{ now_playing_outcome := fun _ => false, scrobble_outcome := fun _ => false },
         { now_playing_outcome := fun _ => true, scrobble_outcome := fun _ => true }]
        (monA.poll (some sessA) (some infoA) 1100).2).2[1]? = some (true, 1))
    ∧ (∃ s2, (monA.poll (some sessA) (some infoA) 1100).1 = some s2 ∧
        s2.scrobbled = true) := by
  have h := dispatch_isolation monA (some sessA) (some infoA) 1100
    [{ now_playing_outcome := fun _ => false, scrobble_outcome := fun _ => false }] []
    { now_playing_outcome := fun _ => true, scrobble_outcome := fun _ => true }
    (by decide)
  exact ⟨by simpa using h.1, h.2.2⟩

/-- C10 (counterexample): the fixture poll at time 1100 emits a scrobble
whose event timestamp is the session's `started_at = 1000`; dispatching that
event to a ListenBrainz service at wall-clock 1100 submits
`listened_at = 1100`, not the event's 1000 — so the event timestamp is not
what every backend service receives as the listen time. -/
theorem listenbrainz_timestamp_cx :
    (monA.poll (some sessA) (some infoA) 1100).2.scrobble
      = some (trackA, 1000, none)
    ∧ ((Service.listenBrainz "Primary").scrobbleSubmission trackA 1000 1100).listened_at
      = 1100
    ∧ ((1100 : Int) ≠ 1000) := by
  decide

/-- C10 (amended): every scrobble event carries the emitting session's
`started_at` (not the threshold-crossing time), and that timestamp is what
the Last.fm adapter submits as the listen time; the ListenBrainz adapter
ignores it and submits the wall-clock time of the dispatch instead. -/
theorem scrobble_event_timestamp (m : MediaMonitor) (sess : Option PlaySession)
    (mi : Option NowPlayingInfo) (now : Int) (tr : Track) (ts : Int)
    (b : Option String)
    (h : (m.poll sess mi now).2.scrobble = some (tr, ts, b)) :
    (∃ s, sess = some s ∧ ts = s.started_at ∧ tr = s.track)
    ∧ (∀ d, (Service.lastFm.scrobbleSubmission tr ts d).listened_at = ts)
    ∧ (∀ nm d, ((Service.listenBrainz nm).scrobbleSubmission tr ts d).listened_at = d) := by
  obtain ⟨s, hs, _, htr, hts, _, _⟩ := poll_scrobble_eq m sess mi now tr ts b h
  exact ⟨⟨s, hs, hts, htr⟩, fun _ => rfl, fun _ _ => rfl⟩

/-- C10 (witness): instantiated at the fixture scrobble (event timestamp
1000, dispatch clock 1100). -/
theorem scrobble_event_timestamp_witness :
    (∃ s, (some sessA : Option PlaySession) = some s ∧ (1000 : Int) = s.started_at ∧
      trackA = s.track)
    ∧ (Service.lastFm.scrobbleSubmission trackA 1000 1100).listened_at = 1000
    ∧ ((Service.listenBrainz "Primary").scrobbleSubmission trackA 1000 1100).listened_at
      = 1100 := by
  have h := scrobble_event_timestamp monA (some sessA) (some infoA) 1100 trackA 1000
    none (by decide)
  exact ⟨h.1, h.2.1 1100, h.2.2 "Primary" 1100⟩

/-- C5 (counterexample): normalization is not idempotent for every pattern
set. With the single (literal) pattern `ab`, cleaning `aabb` removes the
middle occurrence and leaves `ab`, which a second clean removes entirely:
`clean (clean "aabb") = "" ≠ "ab" = clean "aabb"`. -/
theorem clean_not_idempotent_cx :
    ¬ ((TextCleaner.mk true [['a', 'b']]).clean
        ((TextCleaner.mk true [['a', 'b']]).clean "aabb")
      = (TextCleaner.mk true [['a', 'b']]).clean "aabb") := by
  decide

/-- C5 (amended): `TextCleaner::clean` is idempotent whenever the compiled
pattern list is empty — in particular when cleanup is disabled (identity) or
when no pattern survives compilation — because it then reduces to whitespace
trimming, which is idempotent. For general pattern sets idempotence fails
(see the counterexample). -/
theorem clean_idempotent_no_patterns (e : Bool) (t : String) :
    (TextCleaner.mk e []).clean ((TextCleaner.mk e []).clean t)
      = (TextCleaner.mk e []).clean t := by
  cases e with
  | false => simp [TextCleaner.clean]
  | true => simp [TextCleaner.clean, trimChars_idem]

/-- C6: `MediaMonitor::should_scrobble_app` computes exactly the four ordered
rules of the specification's App Filter contract (§4.2): absent or empty app
id follows `scrobble_unknown`; then the allow list; then the ignore list;
otherwise `prompt_for_new_apps` decides between prompting and the fail-open
`Allow`. -/
theorem should_scrobble_app_eq_spec (m : MediaMonitor) (bundle_id : Option String) :
    m.should_scrobble_app bundle_id = classifySpec m.app_filtering bundle_id := by
  cases bundle_id with
  | none => rfl
  | some id =>
    simp only [MediaMonitor.should_scrobble_app, classifySpec, String.isEmpty_iff,
      List.elem_iff]

/-- C9: a configuration in which some bundle id is a member of both
`allowed_apps` and `ignored_apps` never passes `Config::validate`: validation
always returns an error (so `Config::load`, which calls `validate` after
parsing, fails). -/
theorem validate_rejects_overlap (c : Config) (a : String)
    (h₁ : a ∈ c.app_filtering.allowed_apps)
    (h₂ : a ∈ c.app_filtering.ignored_apps) :
    ∃ e, c.validate = Except.error e := by
  simp only [Config.validate]
  split
  · exact ⟨_, rfl⟩
  · split
    · exact ⟨_, rfl⟩
    · cases hlf : validateLastfm c.lastfm with
      | error e => exact ⟨e, rfl⟩
      | ok u =>
        cases u
        cases hlb : validateListenbrainz c.listenbrainz with
        | error e => exact ⟨e, rfl⟩
        | ok v =>
          cases v
          rcases checkAppOverlap_error h₁ h₂ with ⟨e, he⟩
          exact ⟨e, he⟩

/-- C9 (witness): a concrete configuration listing `com.example.player` in
both lists is rejected by `Config::validate`. -/
theorem validate_rejects_overlap_witness :
    ∃ e, (Config.mk 5 50 (CleanupConfig.mk true [])
      (AppFilteringConfig.mk true true ["com.example.player"] ["com.example.player"])
      none []).validate = Except.error e :=
  validate_rejects_overlap _ "com.example.player" (by decide) (by decide)

end OsxScrobbler
